import Mathlib

/-!
# patapata example app, Linux entry point

Verification development for `packages/patapata_example_app/linux/main.cc`:

```
int main(int argc, char** argv) {
  g_autoptr(MyApplication) app = my_application_new();
  return g_application_run(G_APPLICATION(app), argc, argv);
}
```

`main` owns no logic of its own; everything it does is a call into code defined
elsewhere.  Two of the calls are written out (`my_application_new` from
`my_application.cc`, `g_application_run` from GIO); three more are made by the GLib
constructs the two statements use: the checked cast `G_APPLICATION` calls
`g_application_get_type` and `g_type_check_instance_cast`, and the `g_autoptr` variable
calls `g_object_unref` when it goes out of scope.  The embedding takes these five
routines as parameters (a `Toolkit`), lets each of them change an arbitrary outside state
`σ` and end in any of the ways a C++ callee can end, and records every call that `main`
makes in a trace.  The theorems quantify over every toolkit.
-/

namespace Patapata

/-! ## Data model -/

/-- A C object pointer (`MyApplication*`, `GApplication*`, `gpointer`), as an address. -/
abbrev GPointer := Nat

/-- The null pointer. -/
def NULL : GPointer := 0

/-- A GObject type identifier (`GType`). -/
abbrev GType := Nat

/-- The `char** argv` value handed to `main`, represented by the strings it designates.
`main` never reads or writes through it. -/
abbrev Argv := List String

/-- How a call ended, as its caller sees it.  `returned v`: it returned `v`.  `unwound`:
it did not return and the thread was ended by forced unwinding (`pthread_exit`, thread
cancellation), which runs the cleanups of the frames it leaves.  `stopped`: it did not
return and nothing of the caller runs any more (`exit`, `abort`, a crash, termination on
an uncaught exception, an endless loop). -/
inductive Ending (α : Type) where
  | returned (value : α)
  | unwound
  | stopped
  deriving DecidableEq, Repr

/-- What a call did: how it ended, together with the outside state it left whenever code
of the caller still runs afterwards. -/
inductive Outcome (σ α : Type) where
  | returned (value : α) (s : σ)
  | unwound (s : σ)
  | stopped

/-- How the call ended, without the state. -/
def Outcome.ending {σ α : Type} : Outcome σ α → Ending α
  | Outcome.returned v _ => Ending.returned v
  | Outcome.unwound _ => Ending.unwound
  | Outcome.stopped => Ending.stopped

/-- One call made by `main` into code defined outside `main.cc`, with the arguments it
passed and how the call ended. -/
inductive Event where
  | my_application_new (ending : Ending GPointer)
  | g_application_get_type (ending : Ending GType)
  | g_type_check_instance_cast (type_instance : GPointer) (iface_type : GType)
      (ending : Ending GPointer)
  | g_application_run (application : GPointer) (argc : Int) (argv : Argv)
      (ending : Ending Int)
  | g_object_unref (object : GPointer) (ending : Ending Unit)
  deriving DecidableEq, Repr

/-- The routines `main` calls and does not define.  Each one may read and change the
outside state `σ` (heap, windowing system, reference counts, ...) in any way, return any
value, and end in any of the three ways. -/
structure Toolkit (σ : Type) where
  /-- The routine `MyApplication* my_application_new()`. -/
  my_application_new : σ → Outcome σ GPointer
  /-- The routine `GType g_application_get_type(void)`. -/
  g_application_get_type : σ → Outcome σ GType
  /-- The routine
  `GTypeInstance* g_type_check_instance_cast(GTypeInstance* instance, GType iface_type)`. -/
  g_type_check_instance_cast : GPointer → GType → σ → Outcome σ GPointer
  /-- The routine `int g_application_run(GApplication* application, int argc, char** argv)`. -/
  g_application_run : GPointer → Int → Argv → σ → Outcome σ Int
  /-- The routine `void g_object_unref(gpointer object)`. -/
  g_object_unref : GPointer → σ → Outcome σ Unit

/-- What running a piece of code produced: the calls it made, in order, and how it
ended. -/
structure Exec (σ α : Type) where
  trace : List Event
  result : Outcome σ α

/-- A piece of sequential C++ code producing an `α`, started in an outside state. -/
def Prog (σ α : Type) : Type := σ → Exec σ α

/-- Code that computes a value without calling out. -/
def Prog.pure {σ α : Type} (a : α) : Prog σ α :=
  fun s => ⟨[], Outcome.returned a s⟩

/-- Sequencing: the second part runs only if the first one returned, from the state the
first one left; the calls of both are recorded in order. -/
def Prog.bind {σ α β : Type} (m : Prog σ α) (f : α → Prog σ β) : Prog σ β :=
  fun s =>
    match m s with
    | ⟨t, Outcome.returned a s1⟩ => ⟨t ++ (f a s1).trace, (f a s1).result⟩
    | ⟨t, Outcome.unwound s1⟩ => ⟨t, Outcome.unwound s1⟩
    | ⟨t, Outcome.stopped⟩ => ⟨t, Outcome.stopped⟩

instance instMonadProg {σ : Type} : Monad (Prog σ) where
  pure := Prog.pure
  bind := Prog.bind

/-- Leaving the scope of a local variable declared with `__attribute__((cleanup(...)))`,
which is what `g_autoptr` expands to.  The code of the scope made the calls `t` and left
state `s1`; `value` is `some a` when it computed the value `a` to return and `none` when
it is being left by forced unwinding.  The cleanup runs in both cases; if it returns, the
value is returned, respectively the unwinding goes on. -/
def Prog.leaveScope {σ α : Type} (cleanup : Prog σ Unit) (t : List Event)
    (value : Option α) (s1 : σ) : Exec σ α :=
  match cleanup s1 with
  | ⟨t1, Outcome.returned _ s2⟩ =>
    match value with
    | some a => ⟨t ++ t1, Outcome.returned a s2⟩
    | none => ⟨t ++ t1, Outcome.unwound s2⟩
  | ⟨t1, Outcome.unwound s2⟩ => ⟨t ++ t1, Outcome.unwound s2⟩
  | ⟨t1, Outcome.stopped⟩ => ⟨t ++ t1, Outcome.stopped⟩

/-- The scope of such a variable: `body` is the code from the end of the declaration to
the end of the scope.  The cleanup runs when the body returned and when the body is left
by forced unwinding; it does not run when the body stopped. -/
def Prog.withCleanup {σ α : Type} (cleanup : Prog σ Unit) (body : Prog σ α) : Prog σ α :=
  fun s =>
    match body s with
    | ⟨t, Outcome.returned a s1⟩ => Prog.leaveScope cleanup t (some a) s1
    | ⟨t, Outcome.unwound s1⟩ => Prog.leaveScope cleanup t none s1
    | ⟨t, Outcome.stopped⟩ => ⟨t, Outcome.stopped⟩

/-! ## Calls into the toolkit -/

/-- The call `my_application_new()`. -/
def call_my_application_new {σ : Type} (tk : Toolkit σ) : Prog σ GPointer :=
  fun s => ⟨[Event.my_application_new (tk.my_application_new s).ending],
    tk.my_application_new s⟩

/-- The call `g_application_get_type()`. -/
def call_g_application_get_type {σ : Type} (tk : Toolkit σ) : Prog σ GType :=
  fun s => ⟨[Event.g_application_get_type (tk.g_application_get_type s).ending],
    tk.g_application_get_type s⟩

/-- The call `g_type_check_instance_cast(type_instance, iface_type)`. -/
def call_g_type_check_instance_cast {σ : Type} (tk : Toolkit σ) (type_instance : GPointer)
    (iface_type : GType) : Prog σ GPointer :=
  fun s =>
    ⟨[Event.g_type_check_instance_cast type_instance iface_type
        (tk.g_type_check_instance_cast type_instance iface_type s).ending],
      tk.g_type_check_instance_cast type_instance iface_type s⟩

/-- The call `g_application_run(application, argc, argv)`. -/
def call_g_application_run {σ : Type} (tk : Toolkit σ) (application : GPointer)
    (argc : Int) (argv : Argv) : Prog σ Int :=
  fun s =>
    ⟨[Event.g_application_run application argc argv
        (tk.g_application_run application argc argv s).ending],
      tk.g_application_run application argc argv s⟩

/-- The call `g_object_unref(object)`. -/
def call_g_object_unref {σ : Type} (tk : Toolkit σ) (object : GPointer) : Prog σ Unit :=
  fun s => ⟨[Event.g_object_unref object (tk.g_object_unref object s).ending],
    tk.g_object_unref object s⟩

/-- The GObject cast `G_APPLICATION(inst)`.  No `G_DISABLE_CAST_CHECKS` is defined, so it
is the checked cast
`(GApplication*) g_type_check_instance_cast((GTypeInstance*) inst, g_application_get_type())`:
the type is fetched first, and the value of the cast is what the check returns. -/
def G_APPLICATION {σ : Type} (tk : Toolkit σ) (inst : GPointer) : Prog σ GPointer := do
  let iface_type ← call_g_application_get_type tk
  call_g_type_check_instance_cast tk inst iface_type

/-- The cleanup function of a `g_autoptr(MyApplication)` variable holding `ptr`, as GLib
generates it for a GObject type: `if (ptr) g_object_unref(ptr);`. -/
def glib_autoptr_cleanup_MyApplication {σ : Type} (tk : Toolkit σ) (ptr : GPointer) :
    Prog σ Unit :=
  if ptr = NULL then Prog.pure () else call_g_object_unref tk ptr

/-! ## The entry point -/

/-- The function `main` of `main.cc`.  The initialiser of `app` is evaluated before the
variable exists, so no cleanup is registered while `my_application_new` runs.  From then
on the `g_autoptr` cleanup guards the rest of the function: the cast, the run call, and
the return of the run call's value.  The `int` values `argc` and the status are only
passed along, never computed on, so they are carried as integers without a width. -/
def main {σ : Type} (tk : Toolkit σ) (argc : Int) (argv : Argv) : Prog σ Int := do
  let app ← call_my_application_new tk
  Prog.withCleanup (glib_autoptr_cleanup_MyApplication tk app) do
    let application ← G_APPLICATION tk app
    call_g_application_run tk application argc argv

/-- The value `main` returned (the process exit status), if it returned. -/
def exitStatus {σ : Type} (x : Exec σ Int) : Option Int :=
  match x.result with
  | Outcome.returned status _ => some status
  | _ => none

/-! ## Reading a trace -/

/-- Whether an event is a call of `g_application_run`. -/
def Event.isRun : Event → Bool
  | Event.g_application_run _ _ _ _ => true
  | _ => false

/-- Whether an event is a call of `g_object_unref`. -/
def Event.isUnref : Event → Bool
  | Event.g_object_unref _ _ => true
  | _ => false

/-- The calls of `g_application_run` in a trace, in order. -/
def runCalls (t : List Event) : List Event := t.filter Event.isRun

/-- The calls of `g_object_unref` in a trace, in order. -/
def unrefCalls (t : List Event) : List Event := t.filter Event.isUnref

/-- The `(argc, argv)` pairs that the calls of `g_application_run` in a trace received,
in order. -/
def runArguments (t : List Event) : List (Int × Argv) :=
  t.filterMap fun e =>
    match e with
    | Event.g_application_run _ argc argv _ => some (argc, argv)
    | _ => none

/-- Whether everything `main` does before its run call returns, from state `s`: the
constructor and the two calls of the cast. -/
def reachesRun {σ : Type} (tk : Toolkit σ) (s : σ) : Bool :=
  match tk.my_application_new s with
  | Outcome.returned app s1 =>
    match tk.g_application_get_type s1 with
    | Outcome.returned iface_type s2 =>
      match tk.g_type_check_instance_cast app iface_type s2 with
      | Outcome.returned _ _ => true
      | _ => false
    | _ => false
  | _ => false

/-! ## Sample toolkits

Small concrete toolkits on which `main` can be evaluated.  The outside state is the
number of references currently held on the application object. -/

/-- A toolkit whose constructor returns the pointer `app` (holding one reference unless
`app` is null), whose cast returns the pointer it is given, whose run routine ends the
way `run` says, and whose `g_object_unref` drops one reference. -/
def sampleToolkit (app : GPointer) (run : Ending Int) : Toolkit Nat where
  my_application_new := fun refs =>
    Outcome.returned app (if app = NULL then refs else refs + 1)
  g_application_get_type := fun refs => Outcome.returned 80 refs
  g_type_check_instance_cast := fun type_instance _ refs =>
    Outcome.returned type_instance refs
  g_application_run := fun _ _ _ refs =>
    match run with
    | Ending.returned status => Outcome.returned status refs
    | Ending.unwound => Outcome.unwound refs
    | Ending.stopped => Outcome.stopped
  g_object_unref := fun _ refs => Outcome.returned () (refs - 1)

/-- A toolkit whose run routine reports the number of arguments it was given that are
actually present in the vector, so that its status depends on both `argc` and `argv`. -/
def countingToolkit : Toolkit Nat where
  my_application_new := fun refs => Outcome.returned 4096 (refs + 1)
  g_application_get_type := fun refs => Outcome.returned 80 refs
  g_type_check_instance_cast := fun type_instance _ refs =>
    Outcome.returned type_instance refs
  g_application_run := fun _ argc argv refs =>
    Outcome.returned (min argc argv.length) refs
  g_object_unref := fun _ refs => Outcome.returned () (refs - 1)

/-! ## Executions of `main` -/

/-- The scope exit of `main`, spelled out: nothing is called for a null pointer, and
`g_object_unref` is called once on a non-null one. -/
theorem leaveScope_autoptr {σ : Type} (tk : Toolkit σ) (app : GPointer) (t : List Event)
    (value : Option Int) (s1 : σ) :
    Prog.leaveScope (glib_autoptr_cleanup_MyApplication tk app) t value s1 =
      if app = NULL then
        ⟨t, match value with
          | some status => Outcome.returned status s1
          | none => Outcome.unwound s1⟩
      else
        ⟨t ++ [Event.g_object_unref app (tk.g_object_unref app s1).ending],
          match tk.g_object_unref app s1 with
          | Outcome.returned _ s2 =>
            (match value with
              | some status => Outcome.returned status s2
              | none => Outcome.unwound s2)
          | Outcome.unwound s2 => Outcome.unwound s2
          | Outcome.stopped => Outcome.stopped⟩ := by
  by_cases happ : app = NULL
  · cases value <;>
      simp [Prog.leaveScope, glib_autoptr_cleanup_MyApplication, happ, Prog.pure]
  · cases hunref : tk.g_object_unref app s1 <;> cases value <;>
      simp [Prog.leaveScope, glib_autoptr_cleanup_MyApplication, happ,
        call_g_object_unref, hunref, Outcome.ending]

/-- The calls made up to the end of the scope of `app`: those of the scope, then the
release unless the pointer is null. -/
theorem leaveScope_autoptr_trace {σ : Type} (tk : Toolkit σ) (app : GPointer)
    (t : List Event) (value : Option Int) (s1 : σ) :
    (Prog.leaveScope (glib_autoptr_cleanup_MyApplication tk app) t value s1).trace =
      t ++ if app = NULL then []
        else [Event.g_object_unref app (tk.g_object_unref app s1).ending] := by
  rw [leaveScope_autoptr]
  split <;> simp

/-- A scope left by forced unwinding yields no exit status. -/
theorem exitStatus_leaveScope_none {σ : Type} (tk : Toolkit σ) (app : GPointer)
    (t : List Event) (s1 : σ) :
    exitStatus (Prog.leaveScope (glib_autoptr_cleanup_MyApplication tk app) t none s1) =
      none := by
  rw [leaveScope_autoptr]
  split
  · simp [exitStatus]
  · cases h : tk.g_object_unref app s1 <;> simp [exitStatus, h]

/-- A scope left by `return status` yields `status` or nothing. -/
theorem exitStatus_leaveScope_some {σ : Type} (tk : Toolkit σ) (app : GPointer)
    (t : List Event) (status : Int) (s1 : σ) (r : Int)
    (h : exitStatus
      (Prog.leaveScope (glib_autoptr_cleanup_MyApplication tk app) t (some status) s1) =
        some r) :
    r = status := by
  rw [leaveScope_autoptr] at h
  split at h
  · simpa [exitStatus] using h.symm
  · cases h1 : tk.g_object_unref app s1 <;> simp [exitStatus, h1] at h
    exact h.symm

/-- The release is not a run call: the scope exit adds nothing to the run calls. -/
theorem runCalls_leaveScope {σ : Type} (tk : Toolkit σ) (app : GPointer)
    (t : List Event) (value : Option Int) (s1 : σ) :
    runCalls (Prog.leaveScope (glib_autoptr_cleanup_MyApplication tk app) t value s1).trace =
      runCalls t := by
  rw [leaveScope_autoptr_trace]
  split <;> simp [runCalls, Event.isRun]

/-- The executions of `main`, by the way each call ends. -/
theorem main_eq {σ : Type} (tk : Toolkit σ) (argc : Int) (argv : Argv) (s : σ) :
    main tk argc argv s =
      match tk.my_application_new s with
      | Outcome.stopped => ⟨[Event.my_application_new Ending.stopped], Outcome.stopped⟩
      | Outcome.unwound s1 => ⟨[Event.my_application_new Ending.unwound], Outcome.unwound s1⟩
      | Outcome.returned app s1 =>
        match tk.g_application_get_type s1 with
        | Outcome.stopped =>
          ⟨[Event.my_application_new (Ending.returned app),
            Event.g_application_get_type Ending.stopped], Outcome.stopped⟩
        | Outcome.unwound s2 =>
          Prog.leaveScope (glib_autoptr_cleanup_MyApplication tk app)
            [Event.my_application_new (Ending.returned app),
             Event.g_application_get_type Ending.unwound] none s2
        | Outcome.returned ty s2 =>
          match tk.g_type_check_instance_cast app ty s2 with
          | Outcome.stopped =>
            ⟨[Event.my_application_new (Ending.returned app),
              Event.g_application_get_type (Ending.returned ty),
              Event.g_type_check_instance_cast app ty Ending.stopped], Outcome.stopped⟩
          | Outcome.unwound s3 =>
            Prog.leaveScope (glib_autoptr_cleanup_MyApplication tk app)
              [Event.my_application_new (Ending.returned app),
               Event.g_application_get_type (Ending.returned ty),
               Event.g_type_check_instance_cast app ty Ending.unwound] none s3
          | Outcome.returned p s3 =>
            match tk.g_application_run p argc argv s3 with
            | Outcome.stopped =>
              ⟨[Event.my_application_new (Ending.returned app),
                Event.g_application_get_type (Ending.returned ty),
                Event.g_type_check_instance_cast app ty (Ending.returned p),
                Event.g_application_run p argc argv Ending.stopped], Outcome.stopped⟩
            | Outcome.unwound s4 =>
              Prog.leaveScope (glib_autoptr_cleanup_MyApplication tk app)
                [Event.my_application_new (Ending.returned app),
                 Event.g_application_get_type (Ending.returned ty),
                 Event.g_type_check_instance_cast app ty (Ending.returned p),
                 Event.g_application_run p argc argv Ending.unwound] none s4
            | Outcome.returned status s4 =>
              Prog.leaveScope (glib_autoptr_cleanup_MyApplication tk app)
                [Event.my_application_new (Ending.returned app),
                 Event.g_application_get_type (Ending.returned ty),
                 Event.g_type_check_instance_cast app ty (Ending.returned p),
                 Event.g_application_run p argc argv (Ending.returned status)]
                (some status) s4 := by
  cases h1 : tk.my_application_new s with
  | stopped => simp [main, bind, Prog.bind, call_my_application_new, h1, Outcome.ending]
  | unwound s1 => simp [main, bind, Prog.bind, call_my_application_new, h1, Outcome.ending]
  | returned app s1 =>
    cases h2 : tk.g_application_get_type s1 with
    | stopped =>
      simp [main, bind, Prog.bind, Prog.withCleanup, G_APPLICATION, call_my_application_new,
        call_g_application_get_type, h1, h2, Outcome.ending]
    | unwound s2 =>
      simp [main, bind, Prog.bind, Prog.withCleanup, G_APPLICATION, call_my_application_new,
        call_g_application_get_type, h1, h2, Outcome.ending, leaveScope_autoptr]
      split <;> simp
    | returned ty s2 =>
      cases h3 : tk.g_type_check_instance_cast app ty s2 with
      | stopped =>
        simp [main, bind, Prog.bind, Prog.withCleanup, G_APPLICATION,
          call_my_application_new, call_g_application_get_type,
          call_g_type_check_instance_cast, h1, h2, h3, Outcome.ending]
      | unwound s3 =>
        simp [main, bind, Prog.bind, Prog.withCleanup, G_APPLICATION,
          call_my_application_new, call_g_application_get_type,
          call_g_type_check_instance_cast, h1, h2, h3, Outcome.ending,
          leaveScope_autoptr]
        split <;> simp
      | returned p s3 =>
        cases h4 : tk.g_application_run p argc argv s3 <;>
          simp [main, bind, Prog.bind, Prog.withCleanup, G_APPLICATION,
            call_my_application_new, call_g_application_get_type,
            call_g_type_check_instance_cast, call_g_application_run, h1, h2, h3, h4,
            Outcome.ending, leaveScope_autoptr] <;>
          split <;> simp

/-- A trace that ends in a release and has none before it can be cut at a release in one
way only: at its last event. -/
theorem eq_of_append_unref (init : List Event) (u : Event)
    (hinit : ∀ x ∈ init, x.isUnref = false) (before after : List Event) (p : GPointer)
    (e : Ending Unit) (h : init ++ [u] = before ++ Event.g_object_unref p e :: after) :
    before = init ∧ after = [] ∧ u = Event.g_object_unref p e := by
  induction init generalizing before with
  | nil =>
    rcases before with _ | ⟨b, before⟩
    · simp at h
      simp [h.1, h.2]
    · rcases before with _ | ⟨c, before⟩ <;> simp at h
  | cons a init ih =>
    rcases before with _ | ⟨b, before⟩
    · simp at h
      have := hinit a (by simp)
      simp [h.1, Event.isUnref] at this
    · simp at h
      obtain ⟨rfl, h⟩ := h
      obtain ⟨h1, h2, h3⟩ := ih (fun x hx => hinit x (by simp [hx])) before h
      exact ⟨by rw [h1], h2, h3⟩

/-- A trace without a release cannot be cut at one. -/
theorem ne_append_unref (t : List Event) (ht : ∀ x ∈ t, x.isUnref = false)
    (before after : List Event) (p : GPointer) (e : Ending Unit) :
    t ≠ before ++ Event.g_object_unref p e :: after := by
  intro h
  have := ht (Event.g_object_unref p e) (by rw [h]; simp)
  simp [Event.isUnref] at this

/-- The shape of every trace of `main`: calls other than releases, followed by at most one
release; a release is of the non-null pointer the constructor returned, and no call
before it is a run call that stopped. -/
theorem main_trace_shape {σ : Type} (tk : Toolkit σ) (argc : Int) (argv : Argv) (s : σ) :
    ∃ init : List Event, (∀ x ∈ init, x.isUnref = false) ∧
      ((main tk argc argv s).trace = init ∨
        ∃ (app : GPointer) (e0 : Ending Unit),
          (main tk argc argv s).trace = init ++ [Event.g_object_unref app e0] ∧
          app ≠ NULL ∧ Event.my_application_new (Ending.returned app) ∈ init ∧
          ∀ (a : GPointer) (c : Int) (v : Argv) (e1 : Ending Int),
            Event.g_application_run a c v e1 ∈ init → e1 ≠ Ending.stopped) := by
  refine ⟨(main tk argc argv s).trace.filter fun x => !x.isUnref, by simp, ?_⟩
  rw [main_eq]
  repeat' split
  all_goals simp [leaveScope_autoptr, Event.isUnref]
  all_goals split <;> simp_all [Event.isUnref]

/-! ## Exit status -/

/-- C1: the value `main` returns is the value returned by its single call of
`g_application_run`.  For every toolkit, arguments and starting state: (1) whenever `main`
returns a value `r`, its trace holds exactly one call of `g_application_run`, and that
call returned `r`; (2) whenever the constructor and the two calls of the cast return, the
run routine returns `status` and the scope-exit release (made only for a non-null object)
returns, `main` does return, and it returns `status` itself. -/
theorem main_exit_status_is_run_status {σ : Type} (tk : Toolkit σ) (argc : Int)
    (argv : Argv) (s : σ) :
    (∀ r : Int, exitStatus (main tk argc argv s) = some r →
      ∃ application : GPointer, runCalls (main tk argc argv s).trace =
        [Event.g_application_run application argc argv (Ending.returned r)]) ∧
    (∀ (app : GPointer) (s1 : σ) (ty : GType) (s2 : σ) (application : GPointer) (s3 : σ)
        (status : Int) (s4 : σ),
      tk.my_application_new s = Outcome.returned app s1 →
      tk.g_application_get_type s1 = Outcome.returned ty s2 →
      tk.g_type_check_instance_cast app ty s2 = Outcome.returned application s3 →
      tk.g_application_run application argc argv s3 = Outcome.returned status s4 →
      (app ≠ NULL → ∃ s5 : σ, tk.g_object_unref app s4 = Outcome.returned () s5) →
      exitStatus (main tk argc argv s) = some status) := by
  constructor
  · intro r
    rw [main_eq]
    repeat' split
    all_goals first
      | (intro h
         have hr := exitStatus_leaveScope_some _ _ _ _ _ _ h
         subst hr
         rw [runCalls_leaveScope]
         simp [runCalls, Event.isRun])
      | (intro h
         rw [exitStatus_leaveScope_none] at h
         cases h)
      | (intro h
         simp [exitStatus] at h)
  · intro app s1 ty s2 application s3 status s4 hnew htype hcast hrun hrel
    rw [main_eq, hnew]
    simp only [htype, hcast, hrun, leaveScope_autoptr]
    by_cases happ : app = NULL
    · simp [happ, exitStatus]
    · obtain ⟨s5, hunref⟩ := hrel happ
      simp [happ, exitStatus, hunref]

/-- C1, evaluated: with a run routine that returns `min argc (length argv)`, `main` called
with two arguments returns 2, and its one call of `g_application_run` returned 2. -/
theorem main_exit_status_is_run_status_witness :
    exitStatus (main countingToolkit 2 ["patapata_example_app", "--verbose"] 0) = some 2 ∧
    ∃ application : GPointer,
      runCalls (main countingToolkit 2 ["patapata_example_app", "--verbose"] 0).trace =
        [Event.g_application_run application 2 ["patapata_example_app", "--verbose"]
          (Ending.returned 2)] :=
  ⟨(main_exit_status_is_run_status countingToolkit 2
      ["patapata_example_app", "--verbose"] 0).2 4096 1 80 1 4096 1 2 1 rfl rfl rfl rfl
      (fun _ => ⟨0, rfl⟩),
   (main_exit_status_is_run_status countingToolkit 2
      ["patapata_example_app", "--verbose"] 0).1 2 (by decide)⟩

/-! ## Arguments -/

/-- C2: `main` hands `g_application_run` the very `argc` and `argv` it received.  For
every toolkit, arguments and starting state, the argument pairs received by the calls of
`g_application_run` in the trace of `main` are exactly the one pair `(argc, argv)` when
the run call is reached (the constructor and the cast returned), and there is no such
call otherwise. -/
theorem main_forwards_arguments {σ : Type} (tk : Toolkit σ) (argc : Int) (argv : Argv)
    (s : σ) :
    runArguments (main tk argc argv s).trace =
      if reachesRun tk s then [(argc, argv)] else [] := by
  rw [main_eq, reachesRun]
  repeat' split
  all_goals simp_all [runArguments, leaveScope_autoptr]
  all_goals split <;> simp

/-! ## Operations performed -/

/-- C4, as stated, fails: the release can follow a run call that never returned.  When
`g_application_run` ends the thread by forced unwinding (`pthread_exit`, cancellation),
the `g_autoptr` cleanup of `main` still runs: the trace holds a `g_object_unref` of the
object, and no call of `g_application_run` that returned comes before it. -/
theorem main_release_after_unreturned_run_counterexample :
    (main (sampleToolkit 4096 Ending.unwound) 1 ["patapata_example_app"] 0).trace =
      [Event.my_application_new (Ending.returned 4096),
       Event.g_application_get_type (Ending.returned 80),
       Event.g_type_check_instance_cast 4096 80 (Ending.returned 4096),
       Event.g_application_run 4096 1 ["patapata_example_app"] Ending.unwound,
       Event.g_object_unref 4096 (Ending.returned ())] ∧
    ¬ ∀ (before after : List Event) (p : GPointer) (e : Ending Unit),
        (main (sampleToolkit 4096 Ending.unwound) 1 ["patapata_example_app"] 0).trace =
          before ++ Event.g_object_unref p e :: after →
        ∃ (a : GPointer) (st : Int),
          Event.g_application_run a 1 ["patapata_example_app"] (Ending.returned st) ∈
            before := by
  refine ⟨by decide, ?_⟩
  intro h
  obtain ⟨a, st, hmem⟩ := h
    [Event.my_application_new (Ending.returned 4096),
     Event.g_application_get_type (Ending.returned 80),
     Event.g_type_check_instance_cast 4096 80 (Ending.returned 4096),
     Event.g_application_run 4096 1 ["patapata_example_app"] Ending.unwound]
    [] 4096 (Ending.returned ()) (by decide)
  simp at hmem

/-- C4, amended.  For every toolkit, arguments and starting state: (1) in every execution
a release is the last operation of `main` and the only release, it is of the non-null
pointer the constructor returned, and every call of `g_application_run` before it has
ended, by returning or by forced unwinding; so no release happens before or during a run
call.  (2) Whenever the constructor returns a non-null `app`, the cast returns and the
run call returns `status`, the trace holds exactly one call of `g_object_unref`, on `app`,
as its last event, and if that call returns, leaving state `s5`, `main` returns `status`,
whatever the release did to the state.  (3) Whenever instead the run call ends by forced
unwinding, the trace also holds exactly that one release, as its last event, and `main`
does not return. -/
theorem main_releases_once_after_run {σ : Type} (tk : Toolkit σ) (argc : Int)
    (argv : Argv) (s : σ) :
    (∀ (before after : List Event) (p : GPointer) (e : Ending Unit),
      (main tk argc argv s).trace = before ++ Event.g_object_unref p e :: after →
      after = [] ∧ unrefCalls before = [] ∧ p ≠ NULL ∧
        Event.my_application_new (Ending.returned p) ∈ before ∧
        ∀ (a : GPointer) (c : Int) (v : Argv) (e1 : Ending Int),
          Event.g_application_run a c v e1 ∈ before →
          (∃ st : Int, e1 = Ending.returned st) ∨ e1 = Ending.unwound) ∧
    (∀ (app : GPointer) (s1 : σ) (ty : GType) (s2 : σ) (application : GPointer) (s3 : σ)
        (status : Int) (s4 : σ),
      tk.my_application_new s = Outcome.returned app s1 → app ≠ NULL →
      tk.g_application_get_type s1 = Outcome.returned ty s2 →
      tk.g_type_check_instance_cast app ty s2 = Outcome.returned application s3 →
      tk.g_application_run application argc argv s3 = Outcome.returned status s4 →
      unrefCalls (main tk argc argv s).trace =
          [Event.g_object_unref app (tk.g_object_unref app s4).ending] ∧
        (main tk argc argv s).trace.getLast? =
          some (Event.g_object_unref app (tk.g_object_unref app s4).ending) ∧
        ∀ s5 : σ, tk.g_object_unref app s4 = Outcome.returned () s5 →
          (main tk argc argv s).result = Outcome.returned status s5) ∧
    (∀ (app : GPointer) (s1 : σ) (ty : GType) (s2 : σ) (application : GPointer)
        (s3 s4 : σ),
      tk.my_application_new s = Outcome.returned app s1 → app ≠ NULL →
      tk.g_application_get_type s1 = Outcome.returned ty s2 →
      tk.g_type_check_instance_cast app ty s2 = Outcome.returned application s3 →
      tk.g_application_run application argc argv s3 = Outcome.unwound s4 →
      unrefCalls (main tk argc argv s).trace =
          [Event.g_object_unref app (tk.g_object_unref app s4).ending] ∧
        (main tk argc argv s).trace.getLast? =
          some (Event.g_object_unref app (tk.g_object_unref app s4).ending) ∧
        exitStatus (main tk argc argv s) = none) := by
  refine ⟨?_, ?_, ?_⟩
  · intro before after p e htr
    obtain ⟨init, hinit, h | ⟨app, e0, h, happ, hmem, hruns⟩⟩ :=
      main_trace_shape tk argc argv s
    · rw [h] at htr
      exact absurd htr (ne_append_unref init hinit before after p e)
    · rw [h] at htr
      obtain ⟨hb, ha, hu⟩ := eq_of_append_unref init _ hinit before after p e htr
      simp only [Event.g_object_unref.injEq] at hu
      obtain ⟨rfl, -⟩ := hu
      subst hb
      refine ⟨ha, ?_, happ, hmem, ?_⟩
      · simp only [unrefCalls, List.filter_eq_nil_iff]
        intro x hx
        simp [hinit x hx]
      · intro a c v e1 he
        have hne := hruns a c v e1 he
        cases e1 with
        | returned st => exact Or.inl ⟨st, rfl⟩
        | unwound => exact Or.inr rfl
        | stopped => exact absurd rfl hne
  · intro app s1 ty s2 application s3 status s4 hnew happ htype hcast hrun
    rw [main_eq, hnew]
    simp only [htype, hcast, hrun, leaveScope_autoptr, happ, if_false]
    refine ⟨by simp [unrefCalls, Event.isUnref], by simp, ?_⟩
    intro s5 hunref
    simp [hunref]
  · intro app s1 ty s2 application s3 s4 hnew happ htype hcast hrun
    rw [main_eq, hnew]
    simp only [htype, hcast, hrun]
    refine ⟨?_, ?_, exitStatus_leaveScope_none _ _ _ _⟩
    · simp [leaveScope_autoptr_trace, happ, unrefCalls, Event.isUnref]
    · simp [leaveScope_autoptr_trace, happ]

/-- C4, amended, evaluated on a toolkit whose constructor returns the object at 4096
holding one reference.  When the run call returns 2, `main` releases the object once, as
its last operation, and returns 2 with no reference left.  When the run call ends by
forced unwinding, `main` releases the object once as well and does not return. -/
theorem main_releases_once_after_run_witness :
    (unrefCalls (main countingToolkit 2 ["patapata_example_app", "--verbose"] 0).trace =
        [Event.g_object_unref 4096 (Ending.returned ())] ∧
      (main countingToolkit 2 ["patapata_example_app", "--verbose"] 0).trace.getLast? =
        some (Event.g_object_unref 4096 (Ending.returned ())) ∧
      (main countingToolkit 2 ["patapata_example_app", "--verbose"] 0).result =
        Outcome.returned 2 0) ∧
    (unrefCalls
        (main (sampleToolkit 4096 Ending.unwound) 2
          ["patapata_example_app", "--verbose"] 0).trace =
        [Event.g_object_unref 4096 (Ending.returned ())] ∧
      (main (sampleToolkit 4096 Ending.unwound) 2
          ["patapata_example_app", "--verbose"] 0).trace.getLast? =
        some (Event.g_object_unref 4096 (Ending.returned ())) ∧
      exitStatus
        (main (sampleToolkit 4096 Ending.unwound) 2
          ["patapata_example_app", "--verbose"] 0) = none) :=
  ⟨(fun h => ⟨h.1, h.2.1, h.2.2 0 rfl⟩)
      ((main_releases_once_after_run countingToolkit 2
        ["patapata_example_app", "--verbose"] 0).2.1 4096 1 80 1 4096 1 2 1 rfl
        (by decide) rfl rfl rfl),
   (main_releases_once_after_run (sampleToolkit 4096 Ending.unwound) 2
      ["patapata_example_app", "--verbose"] 0).2.2 4096 1 80 1 4096 1 1 rfl
      (by decide) rfl rfl rfl⟩

end Patapata
